import Mathlib

/-!
Verification development for the Slack alert plugin
(`cabot_alert_slack/models.py`).

The Python source is shallowly embedded below:

* the five service statuses become the inductive `Status`;
* the inline notification-policy chain at the top of
  `SlackAlert.send_alert` (the sequence of `if` statements over
  `current_status` / `old_status` that sets `include_mentions` or
  returns early) becomes `decidePolicy`;
* JSON values, HTTP responses and `_check_response` become `Json`,
  `Response` and `check_response`;
* the paginated member listing `_get_channel_members` becomes
  `get_channel_members`, driven by the explicit list of server
  responses it will receive;
* `_ensure_channel_members` becomes `ensure_channel_members`;
* the whole of `SlackAlert.send_alert` becomes `send_alert`, a pure
  function from the service state, the recipient lists and an
  environment of API-call outcomes to the trace of API calls issued,
  the log events emitted and the final outcome.
-/

/-- The closed status set of the monitored service
(`PASSING, WARNING, ERROR, CRITICAL, ACKED`). -/
inductive Status where
  | passing
  | warning
  | error
  | critical
  | acked
deriving DecidableEq, Repr

/-- The three possible dispatch decisions of the notification policy. -/
inductive Decision where
  | suppress
  | sendSilent
  | sendWithMentions
deriving DecidableEq, Repr

/-- The notification-policy chain inlined at the start of
`SlackAlert.send_alert` (models.py lines 219-247): `include_mentions`
starts `True`, the sequential `if` statements over
(`current_status`, `old_status`) either flip it to `False` or return
early (= suppress), and reaching the end sends, with mentions iff the
flag survived. -/
def decidePolicy (old current : Status) : Decision := Id.run do
  let mut include_mentions := true
  if current = Status.warning then
    -- Don't alert at all for WARNING
    include_mentions := false
  if current = Status.error then
    if old = Status.error then
      -- Don't alert repeatedly for ERROR
      include_mentions := false
  if current = Status.passing then
    if old = Status.acked then
      -- Don't message repeatedly for new successes after ACKED failures
      return Decision.suppress
    if old = Status.warning then
      -- Don't alert for recovery from WARNING status
      include_mentions := false
  if current = Status.acked then
    if old = Status.acked then
      -- Don't message repeatedly for ACKED status
      return Decision.suppress
    if old = Status.passing then
      -- Don't message for acked failures even it started passing
      return Decision.suppress
    -- Don't @mention when transitioning into the ACKED status
    include_mentions := false
  return (if include_mentions then Decision.sendWithMentions else Decision.sendSilent)

/-- The dispatch table of spec section 4.1, written from the claim text:
one row per `current` status, with the listed special cases on
`previous`. -/
def decideSpecTable (old current : Status) : Decision :=
  match current with
  | Status.warning => Decision.sendSilent
  | Status.error =>
      if old = Status.error then Decision.sendSilent else Decision.sendWithMentions
  | Status.passing =>
      if old = Status.acked then Decision.suppress
      else if old = Status.warning then Decision.sendSilent
      else Decision.sendWithMentions
  | Status.acked =>
      if old = Status.acked ∨ old = Status.passing then Decision.suppress
      else Decision.sendSilent
  | Status.critical => Decision.sendWithMentions

/-- C1: over the closed 5-value status set, the policy chain of
`send_alert` agrees with the dispatch table of spec section 4.1 on all
25 (previous, current) pairs; being a total function, the decision is
total and deterministic. -/
theorem decidePolicy_matches_table :
    ∀ old current : Status, decidePolicy old current = decideSpecTable old current := by
  intro old current
  cases old <;> cases current <;> rfl

/-- A JSON value, as a Python `dict`-like tree: the shape of
`response.json()` in models.py. Objects keep their key/value pairs as
an association list. -/
inductive Json where
  | null
  | bool (b : Bool)
  | str (s : String)
  | num (n : Int)
  | arr (elems : List Json)
  | obj (fields : List (String × Json))

mutual

/-- Structural equality of JSON values (Python `==` on decoded JSON). -/
def Json.beq : Json → Json → Bool
  | Json.null, Json.null => true
  | Json.bool a, Json.bool b => a == b
  | Json.str a, Json.str b => a == b
  | Json.num a, Json.num b => a == b
  | Json.arr a, Json.arr b => Json.beqList a b
  | Json.obj a, Json.obj b => Json.beqFields a b
  | _, _ => false

/-- Elementwise `Json.beq` on lists. -/
def Json.beqList : List Json → List Json → Bool
  | [], [] => true
  | x :: xs, y :: ys => Json.beq x y && Json.beqList xs ys
  | _, _ => false

/-- Elementwise `Json.beq` on object field lists. -/
def Json.beqFields : List (String × Json) → List (String × Json) → Bool
  | [], [] => true
  | (k1, v1) :: xs, (k2, v2) :: ys => k1 == k2 && Json.beq v1 v2 && Json.beqFields xs ys
  | _, _ => false

end

instance : BEq Json := ⟨Json.beq⟩

/-- Python `dict.get(key)` on a JSON object: `none` when the value is
not an object or the key is absent (Python's `None` default). -/
def Json.get (j : Json) (key : String) : Option Json :=
  match j with
  | Json.obj fields => (fields.find? (fun p => p.1 = key)).map Prod.snd
  | _ => none

/-- Python `value == 'some string'` for a JSON value: true exactly when
the value is that string (models.py compares `e.error_type` against
string literals this way). -/
def Json.isStr (j : Json) (s : String) : Bool :=
  match j with
  | Json.str t => t == s
  | _ => false

/-- Python truthiness of a JSON value (`bool(value)`). -/
def Json.truthy : Json → Bool
  | Json.null => false
  | Json.bool b => b
  | Json.str s => s != ""
  | Json.num n => n != 0
  | Json.arr elems => !elems.isEmpty
  | Json.obj fields => !fields.isEmpty

/-- Truthiness of `response.json().get('ok')`: an absent field is
Python `None`, hence falsy. -/
def okFieldTruthy (j : Json) : Bool :=
  match j.get "ok" with
  | none => false
  | some v => v.truthy

/-- An HTTP response as `_check_response` consumes it: status code,
raw body text, and decoded JSON body. -/
structure Response where
  status_code : Nat
  text : String
  json : Json

/-- Outcome of `_check_response` (models.py lines 47-56), with
exception-driven control flow made explicit:

* `httpError` models the re-raised `requests.HTTPError`; per the
  `requests` library, `response.raise_for_status()` raises exactly for
  status codes in [400, 600), and line 53 appends
  `', response body: ' + response.text` to the original exception
  message (`baseMsg` below stands for that library-produced message);
* `apiError` models `SlackAPIError(error_type, errors)` raised when
  `check_ok` is set and the envelope's `ok` field is falsy, with
  `error_type = json.get('error', '<error field missing>')` and
  `errors = json.get('errors')`. -/
inductive CheckResult where
  | ok
  | httpError (message : String)
  | apiError (error_type : Json) (errors : Option Json)

/-- `_check_response(response, check_ok)` (models.py lines 47-56). -/
def check_response (baseMsg : String) (r : Response) (check_ok : Bool) : CheckResult :=
  if 400 ≤ r.status_code ∧ r.status_code < 600 then
    CheckResult.httpError (baseMsg ++ ", response body: " ++ r.text)
  else if check_ok ∧ okFieldTruthy r.json = false then
    CheckResult.apiError ((r.json.get "error").getD (Json.str "<error field missing>"))
      (r.json.get "errors")
  else
    CheckResult.ok

/-- C7 counterexample: the claim says every non-2xx status raises a
transport error, but `response.raise_for_status()` only raises for
status codes in [400, 600): a 304 response (non-2xx) with `ok=true`
passes `_check_response` without any error. -/
theorem check_response_304_no_transport_error :
    ¬ (200 ≤ 304 ∧ 304 < 300) ∧
    check_response "304 Not Modified"
      { status_code := 304, text := "body", json := Json.obj [("ok", Json.bool true)] }
      true = CheckResult.ok :=
  ⟨by decide, rfl⟩

/-- C7 (amended): a 4xx or 5xx status raises a transport error whose
message embeds the response body (appended after
`', response body: '`); any other status — 2xx, but also 1xx/3xx —
with `check_ok` set and a falsy `ok` envelope field raises the
structured API error carrying the envelope's error-type code
(defaulting to the placeholder) and its optional error-detail list. -/
theorem check_response_classification (baseMsg : String) (r : Response) (check_ok : Bool) :
    (400 ≤ r.status_code → r.status_code < 600 →
      check_response baseMsg r check_ok =
        CheckResult.httpError (baseMsg ++ ", response body: " ++ r.text)) ∧
    (¬ (400 ≤ r.status_code ∧ r.status_code < 600) → check_ok = true →
      okFieldTruthy r.json = false →
      check_response baseMsg r check_ok =
        CheckResult.apiError ((r.json.get "error").getD (Json.str "<error field missing>"))
          (r.json.get "errors")) := by
  constructor
  · intro h1 h2
    unfold check_response
    rw [if_pos ⟨h1, h2⟩]
  · intro hn hc hok
    unfold check_response
    rw [if_neg hn, if_pos ⟨by simp [hc], hok⟩]

/-- Witness for `check_response_classification`: a 404 raises the
transport error with the body embedded, and a 200 with `ok=false`
raises the structured API error. -/
theorem check_response_classification_witness :
    check_response "404 Client Error" { status_code := 404, text := "nope", json := Json.obj [] }
      true = CheckResult.httpError "404 Client Error, response body: nope" ∧
    check_response "ok"
      (Response.mk 200 ""
        (Json.obj [("ok", Json.bool false), ("error", Json.str "bad_request"),
                   ("errors", Json.arr [Json.str "x"])]))
      true = CheckResult.apiError (Json.str "bad_request") (some (Json.arr [Json.str "x"])) := by
  constructor
  · exact (check_response_classification "404 Client Error"
      { status_code := 404, text := "nope", json := Json.obj [] } true).1 (by decide) (by decide)
  · exact (check_response_classification "ok"
      (Response.mk 200 ""
        (Json.obj [("ok", Json.bool false), ("error", Json.str "bad_request"),
                   ("errors", Json.arr [Json.str "x"])])) true).2 (by decide) rfl rfl

/-- C10 counterexample: for a 2xx response lacking both `ok` and
`error` but carrying an `errors` list, the raised API error's detail
list is that list, not `None` as the claim states. -/
theorem check_response_missing_ok_errors_present :
    check_response "m"
      { status_code := 200, text := "", json := Json.obj [("errors", Json.arr [Json.str "boom"])] }
      true = CheckResult.apiError (Json.str "<error field missing>")
        (some (Json.arr [Json.str "boom"])) ∧
    (some (Json.arr [Json.str "boom"]) : Option Json) ≠ none :=
  ⟨rfl, by simp⟩

/-- C10 (amended): a 2xx response whose envelope's `ok` field is
absent or falsy raises the structured API error exactly as for an
explicit `ok=false`; when `error` is also absent the error-type is the
literal placeholder `<error field missing>` and the detail list is the
envelope's `errors` field — `None` when that field is absent too. -/
theorem check_response_missing_ok (baseMsg : String) (r : Response)
    (h2 : 200 ≤ r.status_code) (h3 : r.status_code < 300)
    (hok : okFieldTruthy r.json = false) :
    check_response baseMsg r true =
      CheckResult.apiError ((r.json.get "error").getD (Json.str "<error field missing>"))
        (r.json.get "errors") ∧
    (r.json.get "error" = none →
      check_response baseMsg r true =
        CheckResult.apiError (Json.str "<error field missing>") (r.json.get "errors")) ∧
    (r.json.get "error" = none → r.json.get "errors" = none →
      check_response baseMsg r true =
        CheckResult.apiError (Json.str "<error field missing>") none) := by
  have hn : ¬ (400 ≤ r.status_code ∧ r.status_code < 600) := by
    intro h
    omega
  have hmain := (check_response_classification baseMsg r true).2 hn rfl hok
  refine ⟨hmain, ?_, ?_⟩
  · intro herr
    rw [hmain, herr]
    rfl
  · intro herr herrs
    rw [hmain, herr, herrs]
    rfl

/-- Witness for `check_response_missing_ok`: a 200 response with an
empty JSON object raises the API error with the placeholder error-type
and no detail list. -/
theorem check_response_missing_ok_witness :
    check_response "m" { status_code := 200, text := "", json := Json.obj [] } true =
      CheckResult.apiError (Json.str "<error field missing>") none :=
  (check_response_missing_ok "m" { status_code := 200, text := "", json := Json.obj [] }
    (by decide) (by decide) rfl).2.2 rfl rfl

/-- `response.json().get('response_metadata', {}).get('next_cursor')`
(models.py line 139): the pagination cursor slot, `none` when
`response_metadata` or `next_cursor` is absent. -/
def nextCursor (j : Json) : Option Json :=
  ((j.get "response_metadata").getD (Json.obj [])).get "next_cursor"

/-- `not params['cursor']` (models.py line 140): the stored cursor is
falsy when it is Python `None` (absent key) or any falsy JSON value
(in particular the empty string). -/
def cursorFalsy : Option Json → Bool
  | none => true
  | some v => !v.truthy

/-- `response.json()['members']` (models.py line 136); the well-formed
responses the loop consumes carry a JSON list there. -/
def jsonMembers (j : Json) : List Json :=
  match j.get "members" with
  | some (Json.arr xs) => xs
  | _ => []

/-- The `while True` pagination loop of `_get_channel_members`
(models.py lines 133-141), driven by the explicit sequence of server
responses it will receive, one JSON body per request. Returns the
accumulated member list together with the number of HTTP requests
issued; `none` models the server not answering a request (the
response sequence ran out before a falsy cursor appeared). -/
def get_channel_members_loop : List Json → List Json → Option (List Json × Nat)
  | [], _ => none
  | j :: rest, acc =>
    let acc2 := acc ++ jsonMembers j
    if cursorFalsy (nextCursor j) then some (acc2, 1)
    else
      match get_channel_members_loop rest acc2 with
      | some (ms, n) => some (ms, n + 1)
      | none => none

/-- `_get_channel_members` (models.py lines 118-142): run the
pagination loop from an empty accumulator and return
`set(user_ids)` — modelled as the deduplicated member list — plus the
request count. -/
def get_channel_members (responses : List Json) : Option (List Json × Nat) :=
  (get_channel_members_loop responses []).map (fun p => (p.1.eraseDups, p.2))

/-- Helper for C5: if some response in the sequence carries a falsy
cursor in last position, the loop terminates and issues at most one
request per available response. -/
theorem get_channel_members_loop_le (responses : List Json) :
    ∀ acc : List Json, ∀ h1 : responses ≠ [],
      cursorFalsy (nextCursor (responses.getLast h1)) = true →
      ∃ ms n, get_channel_members_loop responses acc = some (ms, n) ∧ n ≤ responses.length := by
  induction responses with
  | nil => intro acc h1 _; exact absurd rfl h1
  | cons j rest ih =>
    intro acc h1 hlast
    by_cases hc : cursorFalsy (nextCursor j) = true
    · refine ⟨acc ++ jsonMembers j, 1, ?_, ?_⟩
      · simp [get_channel_members_loop, hc]
      · simp
    · have hrest : rest ≠ [] := by
        intro hnil
        subst hnil
        exact hc hlast
      have hlast2 : cursorFalsy (nextCursor (rest.getLast hrest)) = true := by
        rwa [List.getLast_cons hrest] at hlast
      obtain ⟨ms, n, hloop, hn⟩ := ih (acc ++ jsonMembers j) hrest hlast2
      refine ⟨ms, n + 1, ?_, ?_⟩
      · simp [get_channel_members_loop, hc, hloop]
      · simpa using Nat.succ_le_succ hn

/-- C5: for a paginated membership listing whose response sequence
ends in a falsy cursor, the loop terminates after at most one request
per page (hence at most N+1 requests for N pages); a page with a falsy
cursor is always the last one requested; and a falsy cursor is exactly
an absent `response_metadata`, an absent `next_cursor` field, or an
empty-string (or otherwise falsy) cursor value. -/
theorem get_channel_members_terminates :
    (∀ (responses : List Json) (h1 : responses ≠ []),
      cursorFalsy (nextCursor (responses.getLast h1)) = true →
      ∃ ms n, get_channel_members responses = some (ms, n) ∧
        n ≤ responses.length ∧ n ≤ responses.length + 1) ∧
    (∀ (j : Json) (rest acc : List Json), cursorFalsy (nextCursor j) = true →
      get_channel_members_loop (j :: rest) acc = some (acc ++ jsonMembers j, 1)) ∧
    (∀ j : Json, j.get "response_metadata" = none → cursorFalsy (nextCursor j) = true) ∧
    (∀ j meta : Json, j.get "response_metadata" = some meta →
      meta.get "next_cursor" = none → cursorFalsy (nextCursor j) = true) ∧
    (∀ j : Json, nextCursor j = some (Json.str "") → cursorFalsy (nextCursor j) = true) := by
  refine ⟨?_, ?_, ?_, ?_, ?_⟩
  · intro responses h1 hlast
    obtain ⟨ms, n, hloop, hn⟩ := get_channel_members_loop_le responses [] h1 hlast
    exact ⟨ms.eraseDups, n, by simp [get_channel_members, hloop], hn, Nat.le_succ_of_le hn⟩
  · intro j rest acc hc
    simp [get_channel_members_loop, hc]
  · intro j h
    unfold nextCursor
    rw [h]
    rfl
  · intro j meta h1 h2
    unfold nextCursor
    rw [h1]
    show cursorFalsy (meta.get "next_cursor") = true
    rw [h2]
    rfl
  · intro j h
    simp [cursorFalsy, h, Json.truthy]

/-- Witness for `get_channel_members_terminates`: a two-page listing
whose first page carries cursor `"abc"` and whose second page carries
the empty-string cursor terminates within 2 requests. -/
theorem get_channel_members_terminates_witness :
    ∃ ms n,
      get_channel_members
        [Json.obj [("members", Json.arr [Json.str "U1"]),
                   ("response_metadata", Json.obj [("next_cursor", Json.str "abc")])],
         Json.obj [("members", Json.arr [Json.str "U2"]),
                   ("response_metadata", Json.obj [("next_cursor", Json.str "")])]]
        = some (ms, n) ∧ n ≤ 2 ∧ n ≤ 2 + 1 :=
  (get_channel_members_terminates.1
    [Json.obj [("members", Json.arr [Json.str "U1"]),
               ("response_metadata", Json.obj [("next_cursor", Json.str "abc")])],
     Json.obj [("members", Json.arr [Json.str "U2"]),
               ("response_metadata", Json.obj [("next_cursor", Json.str "")])]]
    (by simp) rfl)

/-- Python `str.replace` for a non-empty needle `n :: ns`, on character
lists: scan left to right; at a position where the needle matches,
emit the replacement and skip past the matched needle (the emitted
replacement is never rescanned), otherwise emit the character and move
one position right. -/
def pyReplaceAux (n : Char) (ns repl : List Char) : List Char → List Char
  | [] => []
  | c :: cs =>
    if c == n && ns.isPrefixOf cs then
      repl ++ pyReplaceAux n ns repl (cs.drop ns.length)
    else
      c :: pyReplaceAux n ns repl cs
termination_by l => l.length
decreasing_by
  · simp only [List.length_drop, List.length_cons]
    omega
  · simp only [List.length_cons]
    omega

/-- Python `s.replace(needle, repl)`. All call sites in models.py pass
a single-character needle; the empty-needle case (where Python would
interleave `repl` between characters) never occurs and is mapped to
the identity. -/
def pyReplace (s needle repl : String) : String :=
  match needle.toList with
  | [] => s
  | n :: ns => String.mk (pyReplaceAux n ns repl.toList s.toList)

/-- The escaping the spec describes: every occurrence of `target` is
replaced by a backslash followed by the character, exactly once per
occurrence, and every other character is kept unchanged. -/
def escapeEachOnce (target : Char) (s : List Char) : List Char :=
  s.flatMap (fun c => if c = target then ['\\', c] else [c])

/-- The two exception classes that `send_alert` catches around its
Slack API calls: `requests.HTTPError` and `SlackAPIError`. -/
inductive SlackError where
  | httpError (message : String)
  | apiError (error_type : Json) (errors : Option Json)

/-- Python `isinstance(e, SlackAPIError) and e.error_type == s`
(short-circuit: `e.error_type` is only read after the isinstance
check succeeds). -/
def SlackError.isApiErrorType (e : SlackError) (s : String) : Bool :=
  match e with
  | SlackError.apiError error_type _ => error_type.isStr s
  | _ => false

/-- A Slack message block as `send_alert` builds it: `header` with its
plain text, `section` with its mrkdwn text and optional button
accessory (label, url), `context` with its mrkdwn text. -/
inductive Block where
  | header (text : String)
  | section (text : String) (accessory : Option (String × String))
  | context (text : String)

/-- One Slack Web API operation as issued by the plugin, with the
request payload the claims examine. -/
inductive ApiCall where
  | joinChannel (channel : String)
  | lookupByEmail (email : String)
  | listMembers (channel : String)
  | invite (channel : String) (user_ids : List String)
  | postMessage (channel : String) (text : String) (blocks : List Block)
  | uploadFile (channel : String) (file_name : String) (thread_ts : String)

/-- The diagnostic log entries `send_alert` can emit
(`logger.warning` / `logger.exception` call sites in models.py). -/
inductive LogEvent where
  | joinWarning (channel : String)
  | lookupUnexpected (username : String) (error_type : Json)
  | ensureMembersFailed (channel : String)
  | postFailed (channel : String)
  | uploadFailed (channel : String)

/-- The exceptions that escape `send_alert`: a re-raised post failure,
or the `AttributeError` raised when the recipient-resolution handler
reads `e.error_type` off a `requests.HTTPError`, which has no such
attribute. -/
inductive Fatal where
  | postError (e : SlackError)
  | attributeError

/-- `IGNORE_USER_ID` (models.py line 23). -/
def IGNORE_USER_ID : String := "ignore"

/-- The `EMOJIS` dict (models.py lines 25-31), keyed by the status
string; on the closed status set every key is present, so the `''`
default of `EMOJIS.get(current_status, '')` is unreachable. -/
def EMOJIS : Status → String
  | Status.warning => ":large_yellow_circle:"
  | Status.error => ":red_circle:"
  | Status.critical => ":alert:"
  | Status.passing => ":large_green_circle:"
  | Status.acked => ":zipper_mouth_face:"

/-- The status string as stored by the host system (already uppercase,
so `current_status.upper()` is the identity on it). -/
def Status.toStr : Status → String
  | Status.passing => "PASSING"
  | Status.warning => "WARNING"
  | Status.error => "ERROR"
  | Status.critical => "CRITICAL"
  | Status.acked => "ACKED"

/-- One failing check as `send_alert` reads it (spec section 6's
read surface). External collaborators are abstracted into fields:
`error` is `last_result.error if last_result else None`;
`job_number_str` is `str(job_number)` of
`last_result.job_number if last_result else None` (Python renders the
absent case as `"None"` inside the format string); `check_link` is
the value of `build_absolute_url(reverse('check', ...))` for this
check; `status_link` is `check.get_status_link()`; `is_metrics` is
`isinstance(check, MetricsStatusCheckBase)`; `image` is
`check.get_status_image()`, bytes abstracted, `none` for `None`. -/
structure FailingCheck where
  name : String
  error : Option String
  job_number_str : String
  check_link : String
  status_link : Option String
  is_metrics : Bool
  check_category : String
  image : Option String

/-- One Cabot recipient as `send_alert` reads it. `overrides` lists
the `slack_user_id_override` values of the user's
`SlackAlertUserData` rows in query order (possibly empty, possibly
blank strings); `profile_link` is the value of
`build_absolute_url(reverse('update-alert-user-data', ...))` for this
user. -/
structure CabotUser where
  email : String
  username : String
  first_name : String
  last_name : String
  overrides : List String
  profile_link : String

/-- The slice of the service state `send_alert` reads: name, current
and previous status, and the ordered failing-check list
(`service.all_failing_checks()`). -/
structure Service where
  name : String
  overall_status : Status
  old_overall_status : Status
  failing_checks : List FailingCheck

/-- Outcomes of the remote Slack API operations during one
`send_alert` call, one slot per operation `send_alert` can reach:
`Except.error` means the operation raised (`requests.HTTPError` or
`SlackAPIError`), `Except.ok` carries its result (`lookupByEmail` a
user ID, `membersResult` the channel member set from
`_get_channel_members`, `postResult` the post's `ts`). Uploads are
keyed by file name. -/
structure Env where
  lookupByEmail : String → Except SlackError String
  joinResult : Except SlackError Unit
  membersResult : Except SlackError (List String)
  inviteResult : Except SlackError Unit
  postResult : Except SlackError String
  uploadResult : String → Except SlackError Unit

/-- `list(set(user_ids) - user_ids_in_channel)` (models.py line 167):
the set difference, represented as the deduplicated list in
first-occurrence order (Python's set iteration order is arbitrary;
the claims only examine the set of IDs). -/
def pySetDiff (user_ids members : List String) : List String :=
  user_ids.dedup.filter (fun u => decide (u ∉ members))

/-- `_ensure_channel_members` (models.py lines 152-173) as a trace
semantics: returns the API calls issued and the outcome
(`Except.error` = an exception propagating to the caller).
`membersResult` and `inviteResult` are the outcomes of the two
underlying requests. Mirrors the source exactly: after the emptiness
check on `user_ids`, the membership listing is fetched and the
`conversations.invite` request is issued unconditionally — there is
no emptiness check on the computed `missing_user_ids`. -/
def ensure_channel_members (membersResult : Except SlackError (List String))
    (inviteResult : Except SlackError Unit) (channel_id : String) (user_ids : List String) :
    List ApiCall × Except SlackError Unit :=
  if user_ids.length = 0 then ([], Except.ok ())
  else
    match membersResult with
    | Except.error e => ([ApiCall.listMembers channel_id], Except.error e)
    | Except.ok user_ids_in_channel =>
      let missing_user_ids := pySetDiff user_ids user_ids_in_channel
      ([ApiCall.listMembers channel_id, ApiCall.invite channel_id missing_user_ids],
       inviteResult)

/-- `_cabot_user_to_slack_user_id` (models.py lines 102-116): the
first truthy (non-empty) override wins without any API call,
otherwise `_email_to_slack_user_id` performs the email lookup.
Returns the API calls issued and the outcome. -/
def cabot_user_to_slack_user_id (lookup : String → Except SlackError String)
    (user : CabotUser) : List ApiCall × Except SlackError String :=
  match user.overrides.find? (fun s => s != "") with
  | some ov => ([], Except.ok ov)
  | none => ([ApiCall.lookupByEmail user.email], lookup user.email)

/-- Accumulated state of the recipient-resolution loop
(models.py lines 262-275): API calls issued, resolved `user_ids`
(ignore-sentinel excluded), `missing_users`, and log entries. -/
structure ResolveAcc where
  trace : List ApiCall
  user_ids : List String
  missing_users : List CabotUser
  logs : List LogEvent

/-- Concatenate two resolution states componentwise. -/
def ResolveAcc.append (a b : ResolveAcc) : ResolveAcc :=
  ⟨a.trace ++ b.trace, a.user_ids ++ b.user_ids,
   a.missing_users ++ b.missing_users, a.logs ++ b.logs⟩

/-- Prepend one user's contribution to the rest of the loop. -/
def prependAcc (a : ResolveAcc) : Except ResolveAcc ResolveAcc → Except ResolveAcc ResolveAcc
  | Except.ok s => Except.ok (a.append s)
  | Except.error s => Except.error (a.append s)

/-- The recipient-resolution loop of `send_alert`
(models.py lines 262-275). For each user in order:

* a resolved ID is kept unless it equals `IGNORE_USER_ID`;
* a `SlackAPIError` appends the user to `missing_users`; unless its
  `error_type` is `'users_not_found'`, a diagnostic log entry is
  emitted;
* a `requests.HTTPError` appends the user to `missing_users`, and the
  handler then evaluates `e.error_type` for the log call —
  an attribute `requests.HTTPError` does not have — so an
  `AttributeError` aborts the loop (`Except.error` carries the state
  accumulated so far; nothing is logged for this user). -/
def resolve_users (lookup : String → Except SlackError String) :
    List CabotUser → Except ResolveAcc ResolveAcc
  | [] => Except.ok ⟨[], [], [], []⟩
  | user :: rest =>
    let step := cabot_user_to_slack_user_id lookup user
    match step.2 with
    | Except.ok user_id =>
      prependAcc ⟨step.1, if user_id != IGNORE_USER_ID then [user_id] else [], [], []⟩
        (resolve_users lookup rest)
    | Except.error (SlackError.apiError error_type _errors) =>
      if error_type.isStr "users_not_found" then
        prependAcc ⟨step.1, [], [user], []⟩ (resolve_users lookup rest)
      else
        prependAcc ⟨step.1, [], [user], [LogEvent.lookupUnexpected user.username error_type]⟩
          (resolve_users lookup rest)
    | Except.error (SlackError.httpError _) =>
      Except.error ⟨step.1, [], [user], []⟩

/-- The backtick character. -/
def backtickChar : Char := '\x60'

/-- The mrkdwn text of one failing check's section block
(models.py lines 311-319):
`"*<{link}|{name}>* - `{error}`"` with `>` escaped in the name and
backticks escaped in the error text, and a falsy error (Python `None`
or empty string) rendered as the empty string. -/
def checkSectionText (check_link name : String) (error : Option String) : String :=
  "*<" ++ check_link ++ "|" ++ pyReplace name ">" "\\>" ++ ">* - \x60" ++
    (match error with
     | some e => if e != "" then pyReplace e "\x60" "\\\x60" else ""
     | none => "") ++ "\x60"

/-- The `status_link` / `status_text` pair for a failing check
(models.py lines 299-309): metrics checks label their existing link
`Grafana`; Jenkins checks rebuild the link from the Jenkins API base
(`jenkins_api` is `urljoin(settings.JENKINS_API, '/')`) and label it
`Jenkins`; otherwise the link is kept with an empty label. -/
def statusLinkText (jenkins_api : String) (c : FailingCheck) : Option String × String :=
  if c.is_metrics then
    (c.status_link, "Grafana")
  else if c.check_category == "Jenkins Check" then
    (some (jenkins_api ++ "job/" ++ c.name ++ "/" ++ c.job_number_str ++ "/console"), "Jenkins")
  else
    (c.status_link, "")

/-- One failing check's section block, with the button accessory
attached when the (possibly rebuilt) status link is truthy
(models.py lines 311-332). -/
def checkBlock (jenkins_api : String) (c : FailingCheck) : Block :=
  let lt := statusLinkText jenkins_api c
  Block.section (checkSectionText c.check_link c.name c.error)
    (match lt.1 with
     | some link => if link != "" then some (lt.2, link) else none
     | none => none)

/-- The header block text (models.py lines 283-293):
`'{emoji} {service} status is {status} {emoji}'`. -/
def headerText (service : Service) : String :=
  EMOJIS service.overall_status ++ " " ++ service.name ++ " status is " ++
    service.overall_status.toStr ++ " " ++ EMOJIS service.overall_status

/-- The mentions context text (models.py lines 336-345):
space-separated `<@id>` mentions followed by the pointing glyph. -/
def mentionText (user_ids : List String) : String :=
  String.intercalate " " (user_ids.map (fun user_id => "<@" ++ user_id ++ ">")) ++
    " :point_up:"

/-- A missing user's display name (models.py lines 349-351): email or
username, plus `(First Last)` when both names are non-empty. -/
def missingUserName (u : CabotUser) : String :=
  let name := if u.email != "" then u.email else u.username
  if u.first_name != "" && u.last_name != "" then
    name ++ " (" ++ u.first_name ++ " " ++ u.last_name ++ ")"
  else
    name

/-- The missing-users context text (models.py lines 346-371). -/
def missingUsersText (missing_users : List CabotUser) : String :=
  "Could not find Slack account for some users: " ++
    String.intercalate ", "
      (missing_users.map (fun u => missingUserName u ++ " (<" ++ u.profile_link ++ "|profile>)")) ++
    ".\n" ++
    "Please ensure they have a Slack account. " ++
    "If their Slack email doesn\x27t match their Cabot email, set a user ID override in " ++
    "their Cabot profile, or enter an ID of \x27" ++ IGNORE_USER_ID ++
    "\x27 to silence this warning."

/-- The full block list posted by `send_alert`
(models.py lines 283-371): header, one section per failing check, and
— only when mentions are enabled — a mentions context block when any
ID resolved and a missing-users context block when any user is
missing. -/
def composeBlocks (jenkins_api : String) (service : Service) (include_mentions : Bool)
    (user_ids : List String) (missing_users : List CabotUser) : List Block :=
  [Block.header (headerText service)] ++
    service.failing_checks.map (checkBlock jenkins_api) ++
    (if include_mentions then
      (if !user_ids.isEmpty then [Block.context (mentionText user_ids)] else []) ++
        (if !missing_users.isEmpty then [Block.context (missingUsersText missing_users)] else [])
    else [])

/-- The image-upload loop over `failing_checks[:5]`
(models.py lines 382-390): in input order, a check with a diagnostic
image gets a `files.upload` threaded to `ts`; the surrounding
`try/except` wraps the whole loop, so the first failing upload emits
one log entry and abandons the remaining checks. Returns the API
calls issued and the log entries. -/
def upload_images (uploadResult : String → Except SlackError Unit) (channel_id ts : String) :
    List FailingCheck → List ApiCall × List LogEvent
  | [] => ([], [])
  | check :: rest =>
    match check.image with
    | none => upload_images uploadResult channel_id ts rest
    | some _ =>
      let file_name := check.name ++ ".png"
      match uploadResult file_name with
      | Except.ok _ =>
        let r := upload_images uploadResult channel_id ts rest
        (ApiCall.uploadFile channel_id file_name ts :: r.1, r.2)
      | Except.error _ =>
        ([ApiCall.uploadFile channel_id file_name ts], [LogEvent.uploadFailed channel_id])

/-- The best-effort join step (models.py lines 252-260): one
`conversations.join` request; a `method_not_supported_for_channel_type`
API error is swallowed silently (private channel), any other caught
error is logged. -/
def join_step (env : Env) (channel_id : String) : List ApiCall × List LogEvent :=
  ([ApiCall.joinChannel channel_id],
   match env.joinResult with
   | Except.ok _ => []
   | Except.error e =>
     if e.isApiErrorType "method_not_supported_for_channel_type" then []
     else [LogEvent.joinWarning channel_id])

/-- `SlackAlert.send_alert` (models.py lines 217-390) as a pure trace
semantics. The policy chain at its head is `decidePolicy` (translated
line by line above); configuration resolution
(`_get_slack_api_for_service`) is modelled as the already-resolved
`channel_id` argument, since every suppress return happens before it
and no claim concerns it. Returns the API calls issued in order, the
log entries emitted in order, and the outcome: `Fatal.postError` for
the re-raised post failure, `Fatal.attributeError` for the
`AttributeError` escaping the recipient-resolution handler. -/
def send_alert (env : Env) (jenkins_api : String) (service : Service)
    (users duty_officers : List CabotUser) (channel_id : String) :
    List ApiCall × List LogEvent × Except Fatal Unit :=
  let all_users := users ++ duty_officers
  match decidePolicy service.old_overall_status service.overall_status with
  | Decision.suppress => ([], [], Except.ok ())
  | decision =>
    let include_mentions := decision == Decision.sendWithMentions
    let js := join_step env channel_id
    match resolve_users env.lookupByEmail all_users with
    | Except.error s =>
      (js.1 ++ s.trace, js.2 ++ s.logs, Except.error Fatal.attributeError)
    | Except.ok s =>
      let ec := ensure_channel_members env.membersResult env.inviteResult channel_id s.user_ids
      let ensureLogs : List LogEvent :=
        match ec.2 with
        | Except.ok _ => []
        | Except.error _ => [LogEvent.ensureMembersFailed channel_id]
      let blocks := composeBlocks jenkins_api service include_mentions s.user_ids s.missing_users
      let post_text := service.name ++ " is " ++ service.overall_status.toStr
      let trace0 := js.1 ++ s.trace ++ ec.1 ++ [ApiCall.postMessage channel_id post_text blocks]
      let logs0 := js.2 ++ s.logs ++ ensureLogs
      match env.postResult with
      | Except.error e =>
        (trace0, logs0 ++ [LogEvent.postFailed channel_id], Except.error (Fatal.postError e))
      | Except.ok ts =>
        let up := upload_images env.uploadResult channel_id ts (service.failing_checks.take 5)
        (trace0 ++ up.1, logs0 ++ up.2, Except.ok ())

/-- C2: on the three suppressing transitions (ACKED→PASSING,
ACKED→ACKED, PASSING→ACKED), `send_alert` returns immediately: no API
call of any kind is issued, nothing is logged, and the call succeeds. -/
theorem send_alert_suppress_no_api_calls
    (env : Env) (jenkins_api : String) (service : Service)
    (users duty_officers : List CabotUser) (channel_id : String)
    (h : (service.old_overall_status = Status.acked ∧
            service.overall_status = Status.passing) ∨
         (service.old_overall_status = Status.acked ∧
            service.overall_status = Status.acked) ∨
         (service.old_overall_status = Status.passing ∧
            service.overall_status = Status.acked)) :
    send_alert env jenkins_api service users duty_officers channel_id =
      ([], [], Except.ok ()) := by
  have hdec : decidePolicy service.old_overall_status service.overall_status =
      Decision.suppress := by
    rcases h with ⟨h1, h2⟩ | ⟨h1, h2⟩ | ⟨h1, h2⟩ <;> rw [h1, h2] <;> rfl
  unfold send_alert
  rw [hdec]

/-- Witness for `send_alert_suppress_no_api_calls`: an ACKED→PASSING
transition with one recipient issues nothing. -/
theorem send_alert_suppress_no_api_calls_witness :
    send_alert
      ⟨fun _ => Except.ok "U1", Except.ok (), Except.ok [], Except.ok (),
        Except.ok "1.0", fun _ => Except.ok ()⟩
      "https://jenkins.example/" ⟨"Service", Status.passing, Status.acked, []⟩
      [⟨"a@x.com", "a", "", "", [], "pa"⟩] [] "C1" = ([], [], Except.ok ()) :=
  send_alert_suppress_no_api_calls _ _ _ _ _ _ (Or.inl ⟨rfl, rfl⟩)

/-- C4 failing input: the first recipient's email lookup raises
`requests.HTTPError`; the handler catches it, but its log call reads
`e.error_type`, an attribute `requests.HTTPError` does not have, so
an `AttributeError` aborts `send_alert`: the second recipient is
never looked up, and no message is posted — the claim's "does not
prevent the remaining recipients from being resolved nor the message
from being posted" fails for transport errors. -/
theorem send_alert_http_lookup_stops_resolution :
    send_alert
      ⟨fun e => if e == "a@x.com" then Except.error (SlackError.httpError "boom")
                else Except.ok "U2",
        Except.ok (), Except.ok [], Except.ok (), Except.ok "1.0",
        fun _ => Except.ok ()⟩
      "https://jenkins.example/" ⟨"Service", Status.error, Status.passing, []⟩
      [⟨"a@x.com", "a", "", "", [], "pa"⟩, ⟨"b@x.com", "b", "", "", [], "pb"⟩] [] "C1" =
      ([ApiCall.joinChannel "C1", ApiCall.lookupByEmail "a@x.com"], [],
       Except.error Fatal.attributeError) := rfl

/-- C6 failing input: a transport error during recipient resolution —
one of the failure classes the claim says is "caught, logged, and
never propagate[s] out of send_alert" — escapes `send_alert` as the
`AttributeError` raised by the handler's `e.error_type` read, even
though the post itself would have succeeded. -/
theorem send_alert_resolution_error_propagates :
    send_alert
      ⟨fun _ => Except.error (SlackError.httpError "connection reset"),
        Except.ok (), Except.ok [], Except.ok (), Except.ok "1.0",
        fun _ => Except.ok ()⟩
      "https://jenkins.example/" ⟨"Service", Status.error, Status.passing, []⟩
      [⟨"c@x.com", "c", "", "", [], "pc"⟩] [] "C2" =
      ([ApiCall.joinChannel "C2", ApiCall.lookupByEmail "c@x.com"], [],
       Except.error Fatal.attributeError) := rfl

/-- C3 counterexample: invoking `_ensure_channel_members` against an
already-reconciled channel (desired `["U1"]`, members `["U1"]`, empty
difference) still issues the `conversations.invite` call, with an
empty user list — the claim's "no invite call is issued when that
difference is empty" fails. -/
theorem ensure_channel_members_reconciled_still_invites :
    ensure_channel_members (Except.ok ["U1"]) (Except.ok ()) "C1" ["U1"] =
      ([ApiCall.listMembers "C1", ApiCall.invite "C1" []], Except.ok ()) ∧
    pySetDiff ["U1"] ["U1"] = [] :=
  ⟨rfl, rfl⟩

/-- C3 (amended): with an empty `desiredUserIds` list,
`_ensure_channel_members` performs no API call; with a non-empty list
it always issues exactly one listing and one invite call — even when
the difference is empty — and the user set passed to the invite is
exactly `desiredUserIds − currentMembers`. -/
theorem ensure_channel_members_invite_set
    (membersResult : Except SlackError (List String)) (inviteResult : Except SlackError Unit)
    (channel_id : String) (user_ids members : List String) :
    (user_ids = [] →
      ensure_channel_members membersResult inviteResult channel_id user_ids =
        ([], Except.ok ())) ∧
    (user_ids ≠ [] → membersResult = Except.ok members →
      (ensure_channel_members membersResult inviteResult channel_id user_ids).1 =
        [ApiCall.listMembers channel_id,
         ApiCall.invite channel_id (pySetDiff user_ids members)] ∧
      ∀ u : String, u ∈ pySetDiff user_ids members ↔ (u ∈ user_ids ∧ u ∉ members)) := by
  constructor
  · intro h
    subst h
    rfl
  · intro hne hm
    subst hm
    have hlen : ¬ (user_ids.length = 0) := by
      simpa [List.length_eq_zero] using hne
    constructor
    · simp [ensure_channel_members, hlen]
    · intro u
      simp [pySetDiff, List.mem_filter, List.mem_dedup]

/-- Witness for `ensure_channel_members_invite_set`: the empty desired
list issues nothing; desired `["U2", "U1"]` against members `["U1"]`
issues one listing and one invite whose set is the difference. -/
theorem ensure_channel_members_invite_set_witness :
    ensure_channel_members (Except.ok ["U1"]) (Except.ok ()) "C2" [] = ([], Except.ok ()) ∧
    ((ensure_channel_members (Except.ok ["U1"]) (Except.ok ()) "C2" ["U2", "U1"]).1 =
      [ApiCall.listMembers "C2", ApiCall.invite "C2" (pySetDiff ["U2", "U1"] ["U1"])] ∧
     ∀ u : String, u ∈ pySetDiff ["U2", "U1"] ["U1"] ↔ (u ∈ ["U2", "U1"] ∧ u ∉ ["U1"])) :=
  ⟨(ensure_channel_members_invite_set (Except.ok ["U1"]) (Except.ok ()) "C2" [] ["U1"]).1 rfl,
   (ensure_channel_members_invite_set (Except.ok ["U1"]) (Except.ok ()) "C2" ["U2", "U1"]
      ["U1"]).2 (by simp) rfl⟩

/-- Helper for C9: `str.replace` with a single-character needle is the
per-character flat map — each needle occurrence becomes the
replacement exactly once, every other character is untouched, and the
emitted replacement is never rescanned. -/
theorem pyReplaceAux_single (n : Char) (repl : List Char) :
    ∀ s : List Char,
      pyReplaceAux n [] repl s = s.flatMap (fun c => if c = n then repl else [c]) := by
  intro s
  induction s with
  | nil => simp [pyReplaceAux]
  | cons c cs ih =>
    by_cases h : c = n
    · subst h
      simp [pyReplaceAux, ih]
    · simp [pyReplaceAux, h, ih]

/-- Helper for C9: escaping a character by prefixing a backslash is
exactly `str.replace` with the one-character needle and two-character
replacement used in models.py. -/
theorem escapeEachOnce_eq_replace (n : Char) (s : List Char) :
    pyReplaceAux n [] ['\\', n] s = escapeEachOnce n s := by
  rw [pyReplaceAux_single]
  unfold escapeEachOnce
  congr 1
  funext c
  by_cases h : c = n
  · subst h
    simp
  · simp [h]

/-- C9: in a failing check's section block, every `>` of the check
name becomes `\>` exactly once per occurrence and every backtick of
the error text becomes ``\` `` exactly once per occurrence, with all
other characters unchanged (the per-character flat map
`escapeEachOnce`), and a missing error renders as the empty string. -/
theorem checkSectionText_escapes (check_link name : String) (error : Option String) :
    pyReplace name ">" "\\>" = String.mk (escapeEachOnce '>' name.toList) ∧
    (∀ e : String,
      pyReplace e "\x60" "\\\x60" = String.mk (escapeEachOnce backtickChar e.toList)) ∧
    checkSectionText check_link name error =
      "*<" ++ check_link ++ "|" ++ String.mk (escapeEachOnce '>' name.toList) ++ ">* - \x60" ++
        (match error with
         | some e => String.mk (escapeEachOnce backtickChar e.toList)
         | none => "") ++ "\x60" := by
  have h1 : ∀ s : String, pyReplace s ">" "\\>" = String.mk (escapeEachOnce '>' s.toList) :=
    fun s => congrArg String.mk (escapeEachOnce_eq_replace '>' s.toList)
  have h2 : ∀ s : String,
      pyReplace s "\x60" "\\\x60" = String.mk (escapeEachOnce backtickChar s.toList) :=
    fun s => congrArg String.mk (escapeEachOnce_eq_replace backtickChar s.toList)
  refine ⟨h1 name, h2, ?_⟩
  rcases error with _ | e
  · simp only [checkSectionText]
    rw [h1 name]
  · simp only [checkSectionText]
    rw [h1 name]
    by_cases he : e = ""
    · subst he
      rfl
    · have he2 : (e != "") = true := by
        simpa using he
      rw [if_pos he2, h2 e]

/-- Whether an API call is a `files.upload`. -/
def isUploadCall : ApiCall → Bool
  | ApiCall.uploadFile _ _ _ => true
  | _ => false

/-- The upload calls of a trace, in order. -/
def uploadCalls (trace : List ApiCall) : List ApiCall :=
  trace.filter isUploadCall

/-- The trace component of a resolution outcome, completed or
aborted. -/
def resolveTrace : Except ResolveAcc ResolveAcc → List ApiCall
  | Except.ok s => s.trace
  | Except.error s => s.trace

/-- `prependAcc` prepends the per-user trace in both outcomes. -/
theorem resolveTrace_prependAcc (a : ResolveAcc) (r : Except ResolveAcc ResolveAcc) :
    resolveTrace (prependAcc a r) = a.trace ++ resolveTrace r := by
  cases r <;> rfl

/-- Per-user resolution issues at most an email lookup — never an
upload. -/
theorem cabot_user_no_uploads (lookup : String → Except SlackError String) (user : CabotUser) :
    uploadCalls (cabot_user_to_slack_user_id lookup user).1 = [] := by
  unfold cabot_user_to_slack_user_id
  rcases user.overrides.find? (fun s => s != "") with _ | ov <;> rfl

/-- `uploadCalls` distributes over concatenation. -/
theorem uploadCalls_append (a b : List ApiCall) :
    uploadCalls (a ++ b) = uploadCalls a ++ uploadCalls b :=
  List.filter_append a b

/-- The resolution loop never issues an upload call, whether it
completes or aborts. -/
theorem resolve_users_no_uploads (lookup : String → Except SlackError String) :
    ∀ users : List CabotUser, uploadCalls (resolveTrace (resolve_users lookup users)) = [] := by
  intro users
  induction users with
  | nil => rfl
  | cons user rest ih =>
    have h1 : uploadCalls (cabot_user_to_slack_user_id lookup user).1 = [] :=
      cabot_user_no_uploads lookup user
    unfold resolve_users
    rcases hstep : (cabot_user_to_slack_user_id lookup user).2 with e | user_id
    · rcases e with msg | ⟨error_type, errs⟩
      · simp only [hstep]
        exact h1
      · by_cases ht : error_type.isStr "users_not_found" = true
        · simp only [hstep]
          rw [if_pos ht, resolveTrace_prependAcc, uploadCalls_append, ih]
          simpa using h1
        · simp only [hstep]
          rw [if_neg ht, resolveTrace_prependAcc, uploadCalls_append, ih]
          simpa using h1
    · simp only [hstep]
      rw [resolveTrace_prependAcc, uploadCalls_append, ih]
      simpa using h1

/-- The membership-reconciliation step never issues an upload call. -/
theorem ensure_no_uploads (mr : Except SlackError (List String)) (ir : Except SlackError Unit)
    (ch : String) (ids : List String) :
    uploadCalls (ensure_channel_members mr ir ch ids).1 = [] := by
  unfold ensure_channel_members
  by_cases h : ids.length = 0
  · rw [if_pos h]
    rfl
  · rw [if_neg h]
    rcases mr with e | members <;> rfl

/-- The join step never issues an upload call. -/
theorem join_no_uploads (env : Env) (ch : String) :
    uploadCalls (join_step env ch).1 = [] := rfl

/-- A lone post call contains no upload call. -/
theorem post_no_uploads (ch t : String) (blocks : List Block) :
    uploadCalls [ApiCall.postMessage ch t blocks] = [] := rfl

/-- Every call issued by the upload loop is an upload call. -/
theorem upload_images_all_uploads (up : String → Except SlackError Unit) (ch ts : String) :
    ∀ checks : List FailingCheck,
      uploadCalls (upload_images up ch ts checks).1 = (upload_images up ch ts checks).1 := by
  intro checks
  induction checks with
  | nil => rfl
  | cons c rest ih =>
    rcases himg : c.image with _ | img
    · rw [show upload_images up ch ts (c :: rest) = upload_images up ch ts rest from by
        simp only [upload_images, himg]]
      exact ih
    · rcases hup : up (c.name ++ ".png") with e | u
      · rw [show (upload_images up ch ts (c :: rest)).1 =
            [ApiCall.uploadFile ch (c.name ++ ".png") ts] from by
          simp only [upload_images, himg, hup]]
        rfl
      · rw [show (upload_images up ch ts (c :: rest)).1 =
            ApiCall.uploadFile ch (c.name ++ ".png") ts :: (upload_images up ch ts rest).1 from by
          simp only [upload_images, himg, hup]]
        simp only [uploadCalls] at ih ⊢
        simp [isUploadCall, ih]

/-- The upload loop's trace is a prefix of one upload per image-bearing
check, in input order. -/
theorem upload_images_order (up : String → Except SlackError Unit) (ch ts : String) :
    ∀ checks : List FailingCheck,
      (upload_images up ch ts checks).1 <+:
        (checks.filter (fun c => c.image.isSome)).map
          (fun c => ApiCall.uploadFile ch (c.name ++ ".png") ts) := by
  intro checks
  induction checks with
  | nil => exact ⟨[], rfl⟩
  | cons c rest ih =>
    rcases himg : c.image with _ | img
    · rw [show upload_images up ch ts (c :: rest) = upload_images up ch ts rest from by
        simp only [upload_images, himg]]
      rw [show List.filter (fun c => c.image.isSome) (c :: rest) =
            List.filter (fun c => c.image.isSome) rest from by
        simp [List.filter_cons, himg]]
      exact ih
    · have hfil : List.filter (fun c => c.image.isSome) (c :: rest) =
          c :: List.filter (fun c => c.image.isSome) rest := by
        simp [List.filter_cons, himg]
      rw [hfil, List.map_cons]
      rcases hup : up (c.name ++ ".png") with e | u
      · rw [show (upload_images up ch ts (c :: rest)).1 =
            [ApiCall.uploadFile ch (c.name ++ ".png") ts] from by
          simp only [upload_images, himg, hup]]
        exact ⟨_, rfl⟩
      · rw [show (upload_images up ch ts (c :: rest)).1 =
            ApiCall.uploadFile ch (c.name ++ ".png") ts :: (upload_images up ch ts rest).1 from by
          simp only [upload_images, himg, hup]]
        obtain ⟨t, ht⟩ := ih
        exact ⟨t, by rw [List.cons_append, ht]⟩

/-- When every upload succeeds, the upload loop uploads exactly one
file per image-bearing check, in input order. -/
theorem upload_images_exact (up : String → Except SlackError Unit) (ch ts : String)
    (hall : ∀ f, up f = Except.ok ()) :
    ∀ checks : List FailingCheck,
      (upload_images up ch ts checks).1 =
        (checks.filter (fun c => c.image.isSome)).map
          (fun c => ApiCall.uploadFile ch (c.name ++ ".png") ts) := by
  intro checks
  induction checks with
  | nil => rfl
  | cons c rest ih =>
    rcases himg : c.image with _ | img
    · rw [show upload_images up ch ts (c :: rest) = upload_images up ch ts rest from by
        simp only [upload_images, himg]]
      rw [show List.filter (fun c => c.image.isSome) (c :: rest) =
            List.filter (fun c => c.image.isSome) rest from by
        simp [List.filter_cons, himg]]
      exact ih
    · have hfil : List.filter (fun c => c.image.isSome) (c :: rest) =
          c :: List.filter (fun c => c.image.isSome) rest := by
        simp [List.filter_cons, himg]
      rw [hfil, List.map_cons]
      rw [show (upload_images up ch ts (c :: rest)).1 =
            ApiCall.uploadFile ch (c.name ++ ".png") ts :: (upload_images up ch ts rest).1 from by
          simp only [upload_images, himg, hall (c.name ++ ".png")]]
      rw [ih]

/-- C8: when the dispatch proceeds past the policy and resolution and
the post succeeds with timestamp `ts`, the upload calls of the whole
`send_alert` trace are exactly those of the loop over
`failing_checks[:5]`: a prefix (cut short only by an upload failure)
of one threaded upload per image-bearing check among the first 5, in
caller order — checks beyond the fifth never get an attempt — and the
full list when every upload succeeds; in all cases `send_alert`
returns normally, upload failures included. -/
theorem send_alert_upload_cap
    (env : Env) (jenkins_api : String) (service : Service)
    (users duty_officers : List CabotUser) (channel_id : String)
    (s : ResolveAcc) (ts : String)
    (hdec : decidePolicy service.old_overall_status service.overall_status ≠ Decision.suppress)
    (hres : resolve_users env.lookupByEmail (users ++ duty_officers) = Except.ok s)
    (hpost : env.postResult = Except.ok ts) :
    (send_alert env jenkins_api service users duty_officers channel_id).2.2 = Except.ok () ∧
    uploadCalls (send_alert env jenkins_api service users duty_officers channel_id).1 =
      (upload_images env.uploadResult channel_id ts (service.failing_checks.take 5)).1 ∧
    uploadCalls (send_alert env jenkins_api service users duty_officers channel_id).1 <+:
      ((service.failing_checks.take 5).filter (fun c => c.image.isSome)).map
        (fun c => ApiCall.uploadFile channel_id (c.name ++ ".png") ts) ∧
    ((∀ f, env.uploadResult f = Except.ok ()) →
      uploadCalls (send_alert env jenkins_api service users duty_officers channel_id).1 =
        ((service.failing_checks.take 5).filter (fun c => c.image.isSome)).map
          (fun c => ApiCall.uploadFile channel_id (c.name ++ ".png") ts)) := by
  have hs : uploadCalls s.trace = [] := by
    have h := resolve_users_no_uploads env.lookupByEmail (users ++ duty_officers)
    rw [hres] at h
    exact h
  have h3 := upload_images_order env.uploadResult channel_id ts (service.failing_checks.take 5)
  cases hd : decidePolicy service.old_overall_status service.overall_status with
  | suppress => exact absurd hd hdec
  | sendSilent =>
    have h2 : uploadCalls (send_alert env jenkins_api service users duty_officers channel_id).1 =
        (upload_images env.uploadResult channel_id ts (service.failing_checks.take 5)).1 := by
      simp only [send_alert, hd, hres, hpost]
      simp only [uploadCalls_append, hs, ensure_no_uploads, join_no_uploads, post_no_uploads,
        upload_images_all_uploads]
      simp
    refine ⟨?_, h2, ?_, ?_⟩
    · simp only [send_alert, hd, hres, hpost]
    · rw [h2]
      exact h3
    · intro hall
      rw [h2, upload_images_exact env.uploadResult channel_id ts hall]
  | sendWithMentions =>
    have h2 : uploadCalls (send_alert env jenkins_api service users duty_officers channel_id).1 =
        (upload_images env.uploadResult channel_id ts (service.failing_checks.take 5)).1 := by
      simp only [send_alert, hd, hres, hpost]
      simp only [uploadCalls_append, hs, ensure_no_uploads, join_no_uploads, post_no_uploads,
        upload_images_all_uploads]
      simp
    refine ⟨?_, h2, ?_, ?_⟩
    · simp only [send_alert, hd, hres, hpost]
    · rw [h2]
      exact h3
    · intro hall
      rw [h2, upload_images_exact env.uploadResult channel_id ts hall]

/-- Environment for the `send_alert_upload_cap` witness: every
operation succeeds, the post returns timestamp `42.0`. -/
def uploadWitnessEnv : Env :=
  ⟨fun _ => Except.ok "U9", Except.ok (), Except.ok [], Except.ok (),
   Except.ok "42.0", fun _ => Except.ok ()⟩

/-- Service for the `send_alert_upload_cap` witness: PASSING→ERROR
with six failing checks; checks 1, 3 and 6 expose images. -/
def uploadWitnessService : Service :=
  ⟨"S", Status.error, Status.passing,
   [⟨"c1", none, "None", "L1", none, false, "", some "i1"⟩,
    ⟨"c2", none, "None", "L2", none, false, "", none⟩,
    ⟨"c3", none, "None", "L3", none, false, "", some "i3"⟩,
    ⟨"c4", none, "None", "L4", none, false, "", none⟩,
    ⟨"c5", none, "None", "L5", none, false, "", none⟩,
    ⟨"c6", none, "None", "L6", none, false, "", some "i6"⟩]⟩

/-- Witness for `send_alert_upload_cap`: with six failing checks of
which the first, third and sixth have images and all uploads succeed,
the send returns normally and uploads exactly `c1.png` and `c3.png`
threaded to the post — the sixth check, beyond the cap, is never
attempted. -/
theorem send_alert_upload_cap_witness :
    (send_alert uploadWitnessEnv "J/" uploadWitnessService [] [] "C9").2.2 = Except.ok () ∧
    uploadCalls (send_alert uploadWitnessEnv "J/" uploadWitnessService [] [] "C9").1 =
      ((uploadWitnessService.failing_checks.take 5).filter (fun c => c.image.isSome)).map
        (fun c => ApiCall.uploadFile "C9" (c.name ++ ".png") "42.0") := by
  have h := send_alert_upload_cap uploadWitnessEnv "J/" uploadWitnessService [] [] "C9"
    ⟨[], [], [], []⟩ "42.0" (by decide) rfl rfl
  exact ⟨h.1, h.2.2.2 (fun f => rfl)⟩
